import Mathlib

/-!
Verification development for the `web-scraping-practice` extraction pipeline
(`scripts/scraper.py`).

The Python source is shallowly embedded as follows.  Network I/O and HTML
parsing by `requests`/`BeautifulSoup` are abstracted into oracles: a catalog
fetch is a function `String → Option (List Item)` (`none` models a network or
HTTP-status failure of `requests.get` / `raise_for_status`, `some items` models
a successfully fetched page whose `article.product_pod` nodes carry the text
fields the scraper reads), and a detail fetch is a `String → Option DetailDoc`.
Python floats are modelled exactly as rationals: every numeric literal the
pipeline handles is a short decimal string, and none of the verified claims
depends on binary rounding.  Python exceptions are modelled by `Option`
(`none` = an exception escaped to the enclosing `try`), and the `pandas`
column access in `main` by `Except String` (`.error` = `KeyError`).
-/

/-! ### Python text primitives -/

/-- One step bound of the left-to-right scan of `str.replace`.  `fuel` only
bounds the recursion; `replaceSub` always supplies `l.length`, which is enough
because every step consumes at least one character of `l`. -/
def replaceSubAux (pat rep : List Char) : Nat → List Char → List Char
  | _, [] => []
  | 0, l => l
  | fuel + 1, c :: cs =>
    if pat ≠ [] ∧ pat.isPrefixOf (c :: cs) then
      rep ++ replaceSubAux pat rep fuel (cs.drop (pat.length - 1))
    else
      c :: replaceSubAux pat rep fuel cs

/-- Python `str.replace(pat, rep)`: replace every non-overlapping occurrence of
`pat`, scanning left to right (for the nonempty patterns the scraper uses). -/
def replaceSub (pat rep l : List Char) : List Char :=
  replaceSubAux pat rep l.length l

/-- Python `str.strip()`: remove leading and trailing whitespace. -/
def py_strip (s : String) : String :=
  (((s.toList.dropWhile Char.isWhitespace).reverse.dropWhile Char.isWhitespace).reverse).asString

/-- Numeric value of a digit string. -/
def digitsVal (cs : List Char) : Nat :=
  cs.foldl (fun a c => 10 * a + (c.toNat - 48)) 0

/-- Model of CPython `float(s)` on optionally signed plain decimal literals:
optional surrounding whitespace, an optional `+`/`-` sign, then digits with an
optional fractional part (at least one digit overall).  Exponent, underscore,
`inf` and `nan` forms are out of scope — every price text this development
evaluates is of the plain shape, so the model is exact there.  Returns the
parsed value as an exact rational, `none` when `float` would raise
`ValueError`. -/
def pyFloat (s : String) : Option Rat :=
  let cs := (py_strip s).toList
  let signed : Bool × List Char :=
    match cs with
    | '-' :: r => (true, r)
    | '+' :: r => (false, r)
    | r => (false, r)
  let rest := signed.2
  let ip := rest.takeWhile Char.isDigit
  let rest2 := rest.dropWhile Char.isDigit
  let mk : Nat → Nat → Rat := fun n den =>
    if signed.1 then mkRat (-(n : Int)) den else mkRat n den
  match rest2 with
  | [] => if ip.isEmpty then none else some (mk (digitsVal ip) 1)
  | '.' :: frac =>
    if frac.all Char.isDigit ∧ (ip ≠ [] ∨ frac ≠ []) then
      some (mk (digitsVal ip * 10 ^ frac.length + digitsVal frac) (10 ^ frac.length))
    else none
  | _ => none

/-! ### Catalog page model (`scrape_books`) -/

/-- `ratings.get(rating_class, 0)` in `get_rating_number`: the fixed
five-entry dictionary with default `0`. -/
def get_rating_number (rating_class : String) : Nat :=
  if rating_class = "One" then 1
  else if rating_class = "Two" then 2
  else if rating_class = "Three" then 3
  else if rating_class = "Four" then 4
  else if rating_class = "Five" then 5
  else 0

/-- The text fields `scrape_books` reads out of one `article.product_pod`
node: `h3 > a[title]`, `p.price_color` text, the second class token of
`p.star-rating`, `p.instock.availability` text, `img[src]`, `h3 > a[href]`.
The claims under verification exercise the price conversion, which is the
fallible step; the node lookups themselves are modelled as total fields of
the fetched item. -/
structure Item where
  title : String
  price_text : String
  rating_class : String
  availability : String
  img_src : String
  href : String
deriving DecidableEq

/-- One row of `all_books`: the dictionary literal appended per book. -/
structure BookRecord where
  titulo : String
  precio : Rat
  rating : Nat
  disponibilidad : String
  imagen_url : String
  libro_url : String
deriving DecidableEq

/-- `price_text.replace('£', '')`. -/
def strip_pounds (s : String) : String :=
  (replaceSub ['£'] [] s.toList).asString

/-- The per-book body of the item loop in `scrape_books`.  `float` raising
`ValueError` on the price text is the `none` case; all other expressions in
the body are total on the modelled item. -/
def parse_item (book : Item) : Option BookRecord :=
  match pyFloat (strip_pounds book.price_text) with
  | none => none
  | some price =>
    some {
      titulo := book.title
      precio := price
      rating := get_rating_number book.rating_class
      disponibilidad := py_strip book.availability
      imagen_url := "http://books.toscrape.com/" ++
        (replaceSub "../".toList [] book.img_src.toList).asString
      libro_url := "http://books.toscrape.com/catalogue/" ++
        (replaceSub "../".toList [] book.href.toList).asString
    }

/-- The `for book in books` loop of `scrape_books`, with the page-level
exception semantics of the enclosing `try`: records parsed before a failing
item have already been appended and are kept, the failing item and everything
after it on the page are abandoned.  The boolean is `true` when the loop ran
to completion (so control reaches `time.sleep(0.5)`), `false` when an
exception jumped to the `except` handler. -/
def parse_catalog_page : List Item → List BookRecord × Bool
  | [] => ([], true)
  | it :: rest =>
    match parse_item it with
    | none => ([], false)
    | some r =>
      let tail := parse_catalog_page rest
      (r :: tail.1, tail.2)

/-- Side effects of one walk iteration, in program order: the `requests.get`
call and the `time.sleep(0.5)` call. -/
inductive Ev where
  | fetch (url : String)
  | sleep
deriving DecidableEq

def Ev.isFetch : Ev → Bool
  | .fetch _ => true
  | .sleep => false

/-- `base_url.format(page)`: substitute the page number for the single
positional replacement field of the template. -/
def format_url (template : String) (page : Nat) : String :=
  (replaceSub ['\x7b', '\x7d'] (Nat.repr page).toList template.toList).asString

/-- One iteration of the page loop of `scrape_books`: fetch the formatted URL;
on fetch failure (`requests.get`/`raise_for_status` raising) contribute no
records and no sleep; on fetch success run the item loop, keep whatever it
appended, and sleep only if no exception escaped the item loop. -/
def page_step (fetch_url : String → Option (List Item)) (template : String)
    (page : Nat) : List BookRecord × List Ev :=
  match fetch_url (format_url template page) with
  | none => ([], [Ev.fetch (format_url template page)])
  | some items =>
    ((parse_catalog_page items).1,
      Ev.fetch (format_url template page) ::
        (if (parse_catalog_page items).2 then [Ev.sleep] else []))

/-- `for page in range(start, start + count)`: run `count` consecutive page
iterations from `start`, concatenating records and side-effect events. -/
def scrape_books_aux (fetch_url : String → Option (List Item)) (template : String) :
    Nat → Nat → List BookRecord × List Ev
  | _, 0 => ([], [])
  | start, count + 1 =>
    let first := page_step fetch_url template start
    let rest := scrape_books_aux fetch_url template (start + 1) count
    (first.1 ++ rest.1, first.2 ++ rest.2)

/-- `scrape_books(num_pages)` over the fetch oracle: the final `all_books`
list together with the ordered trace of fetch and sleep effects.  The loop is
`for page in range(1, num_pages + 1)`. -/
def scrape_books (fetch_url : String → Option (List Item)) (template : String)
    (num_pages : Nat) : List BookRecord × List Ev :=
  scrape_books_aux fetch_url template 1 num_pages

/-- Page `page` was processed without an exception: the fetch succeeded and
every item on it parsed, so its iteration reached `time.sleep`. -/
def page_ok (fetch_url : String → Option (List Item)) (template : String)
    (page : Nat) : Bool :=
  match fetch_url (format_url template page) with
  | none => false
  | some items => (parse_catalog_page items).2

/-- URLs of the fetch events of a trace, in order. -/
def fetched_urls (t : List Ev) : List String :=
  t.filterMap fun e =>
    match e with
    | .fetch u => some u
    | .sleep => none

/-- A trace is politeness-delayed: no fetch is immediately followed by
another fetch with no sleep in between. -/
def well_delayed : List Ev → Bool
  | [] => true
  | [_] => true
  | a :: b :: rest => !(a.isFetch && b.isFetch) && well_delayed (b :: rest)

/-! ### Detail page model (`scrape_book_details`) -/

/-- The parts of a fetched detail page that `scrape_book_details` reads.
`breadcrumb_links` is `none` when `soup.find('ul', class_='breadcrumb')`
returns no node (so `.find_all` raises `AttributeError`), otherwise the link
texts of the breadcrumb list.  `article_first_p` is `none` when the
`article.product_page` node is absent (`.find` on `None` raises), otherwise
`some tag` where `tag` is the text of the first non-nested paragraph, or
`none` inside when that paragraph is absent.  `table_rows` is `none` when the
striped table is absent (`if table:` is false), otherwise the rows, each as
the optional texts of its `th` and `td` cells (`none` = cell absent, so
`.text` on `None` raises). -/
structure DetailDoc where
  breadcrumb_links : Option (List String)
  article_first_p : Option (Option String)
  table_rows : Option (List (Option String × Option String))
deriving DecidableEq

/-- The `for row in rows` loop filling `product_info`, in row order; a row
whose `th` or `td` lookup returns `None` raises `AttributeError`, abandoning
the whole detail (`none`). -/
def build_product_info : List (Option String × Option String) →
    Option (List (String × String))
  | [] => some []
  | (th, td) :: rest =>
    match th, td with
    | some h, some v =>
      match build_product_info rest with
      | none => none
      | some acc => some ((h, v) :: acc)
    | _, _ => none

/-- Python `dict` lookup on an assignment-ordered association list: the most
recent assignment to the key wins. -/
def py_dict_get (l : List (String × String)) (k : String) : Option String :=
  (l.reverse.find? fun kv => kv.1 == k).map fun kv => kv.2

/-- Python `dict.get(k, d)`. -/
def py_dict_getD (l : List (String × String)) (k d : String) : String :=
  (py_dict_get l k).getD d

/-- `scrape_book_details` over the fetched document (`none` = the
`requests.get`/`raise_for_status` call raised).  Every exception inside the
`try` block — fetch failure, absent breadcrumb list, a breadcrumb with fewer
than three links, absent product article, a table row without a `th` or `td`
cell — lands in the `except` handler, which returns `None`.  On success the
returned dictionary is the five-entry literal of the source. -/
def scrape_book_details (fetched : Option DetailDoc) : Option (List (String × String)) :=
  match fetched with
  | none => none
  | some doc =>
    match doc.breadcrumb_links with
    | none => none
    | some links =>
      match links.get? 2 with
      | none => none
      | some category =>
        match doc.article_first_p with
        | none => none
        | some tag =>
          let description := match tag with
            | some t => t
            | none => "Sin descripción"
          let info := match doc.table_rows with
            | none => some []
            | some rows => build_product_info rows
          match info with
          | none => none
          | some product_info =>
            some [("categoria", category),
                  ("descripcion", description),
                  ("upc", py_dict_getD product_info "UPC" ""),
                  ("impuestos", py_dict_getD product_info "Tax" ""),
                  ("stock", py_dict_getD product_info "Availability" "")]

/-! ### Enrichment loop and statistics (`main`) -/

/-- A Python value stored in a scraped row: a string, a float (modelled as an
exact rational) or an int. -/
inductive Val where
  | s (v : String)
  | q (v : Rat)
  | n (v : Nat)
deriving DecidableEq

/-- The dictionary literal appended to `detailed_books`: three fields copied
from the catalog row, then the splatted detail fields in their dictionary
order.  The detail keys are disjoint from the three copied keys, so the
splat overrides nothing. -/
def merge_detail (row : BookRecord) (details : List (String × String)) :
    List (String × Val) :=
  [("titulo", Val.s row.titulo), ("precio", Val.q row.precio), ("rating", Val.n row.rating)]
    ++ details.map fun kv => (kv.1, Val.s kv.2)

/-- Python `dict` lookup for `Val`-valued rows. -/
def py_val_get (l : List (String × Val)) (k : String) : Option Val :=
  (l.reverse.find? fun kv => kv.1 == k).map fun kv => kv.2

/-- The `for idx, row in df_books.head(10).iterrows()` body: fetch and parse
the detail page of each selected record; append the merged dictionary when
`scrape_book_details` returned a dictionary, append nothing when it returned
`None`. -/
def enrich_details (fetch_detail : String → Option DetailDoc) :
    List BookRecord → List (List (String × Val))
  | [] => []
  | row :: rest =>
    match scrape_book_details (fetch_detail row.libro_url) with
    | none => enrich_details fetch_detail rest
    | some details => merge_detail row details :: enrich_details fetch_detail rest

/-- The enrichment pass of `main` with the sample size as a parameter
(`df_books.head(limit)` — the source calls it with `10`). -/
def enrich_loop (fetch_detail : String → Option DetailDoc)
    (records : List BookRecord) (limit : Nat) : List (List (String × Val)) :=
  enrich_details fetch_detail (records.take limit)

/-- One row of `pd.DataFrame(all_books)`: the per-book dictionary. -/
def book_row (r : BookRecord) : List (String × Val) :=
  [("titulo", Val.s r.titulo), ("precio", Val.q r.precio), ("rating", Val.n r.rating),
   ("disponibilidad", Val.s r.disponibilidad), ("imagen_url", Val.s r.imagen_url),
   ("libro_url", Val.s r.libro_url)]

/-- `df[k]`: pandas raises `KeyError` when `k` is not a column of the frame —
the columns of a frame built from a list of dictionaries are the keys
occurring in the rows, so an empty frame has no columns at all.  On success
the column holds each row's value for the key (every row of `df_books`
carries every key). -/
def df_column (df : List (List (String × Val))) (k : String) :
    Except String (List Val) :=
  if df.any (fun row => row.any fun kv => kv.1 == k) then
    Except.ok (df.filterMap fun row => py_val_get row k)
  else
    Except.error ("KeyError: " ++ k)

/-- Numeric content of a cell, for the pandas aggregations. -/
def val_num : Val → Option Rat
  | .s _ => none
  | .q v => some v
  | .n v => some (v : Rat)

/-- `series.mean()` on a numeric column.  (On a column with no numeric
entries pandas yields `NaN`; that case is unreachable here because `main`
only aggregates columns that exist, hence are nonempty, and `Rat` division
by zero would give `0`.) -/
def series_mean (vs : List Val) : Rat :=
  let nums := vs.filterMap val_num
  nums.foldl (· + ·) 0 / (nums.length : Rat)

/-- `series.min()` on a numeric column (0 stands for the unreachable
empty-column `NaN`). -/
def series_min (vs : List Val) : Rat :=
  match vs.filterMap val_num with
  | [] => 0
  | h :: t => t.foldl min h

/-- `series.max()` on a numeric column (0 stands for the unreachable
empty-column `NaN`). -/
def series_max (vs : List Val) : Rat :=
  match vs.filterMap val_num with
  | [] => 0
  | h :: t => t.foldl max h

/-- The `stats` dictionary of `main`. -/
structure SummaryStats where
  total_libros : Nat
  precio_promedio : Rat
  precio_minimo : Rat
  precio_maximo : Rat
  rating_promedio : Rat
deriving DecidableEq

/-- The statistics step of `main`: build `pd.DataFrame(all_books)` and read
the `stats` entries off it.  The first failing operation propagates as the
`KeyError` pandas raises on a missing column. -/
def compute_stats (books : List BookRecord) : Except String SummaryStats :=
  let df := books.map book_row
  match df_column df "precio" with
  | Except.error e => Except.error e
  | Except.ok precios =>
    match df_column df "rating" with
    | Except.error e => Except.error e
    | Except.ok ratings =>
      Except.ok { total_libros := df.length,
                  precio_promedio := series_mean precios,
                  precio_minimo := series_min precios,
                  precio_maximo := series_max precios,
                  rating_promedio := series_mean ratings }

/-! ### Spec-side definitions

Two definitions follow the specification's words rather than the source, for
the refinement comparisons of claims C1 and C3. -/

/-- Following the spec's words for C3: strip exactly one leading currency
glyph and parse the remainder as a non-negative decimal number. -/
def spec_price_parse (s : String) : Option Rat :=
  match s.toList with
  | '£' :: rest =>
    match pyFloat rest.asString with
    | some v => if 0 ≤ v then some v else none
    | none => none
  | _ => none

/-- Following the spec's words for C1: one record per item whose price is
parseable, in document order, a malformed item skipping only itself. -/
def spec_parse_catalog_page (items : List Item) : List BookRecord :=
  items.filterMap parse_item

/-! ### Concrete fixtures -/

/-- A well-formed catalog item. -/
def item_a : Item :=
  { title := "Book A", price_text := "£10.00", rating_class := "Three",
    availability := " In stock ", img_src := "../media/a.jpg", href := "../a_1/index.html" }

/-- An item whose price text does not survive `float` conversion. -/
def item_bad : Item :=
  { title := "Book B", price_text := "£abc", rating_class := "Two",
    availability := "In stock", img_src := "../media/b.jpg", href := "../b_2/index.html" }

/-- A second well-formed catalog item. -/
def item_c : Item :=
  { title := "Book C", price_text := "£20.50", rating_class := "Five",
    availability := "In stock", img_src := "../media/c.jpg", href := "../c_3/index.html" }

/-- An item with two currency glyphs in its price text. -/
def item_pounds : Item :=
  { title := "Book D", price_text := "££5", rating_class := "One",
    availability := "In stock", img_src := "../media/d.jpg", href := "../d_4/index.html" }

/-- An item with a negative price text. -/
def item_neg : Item :=
  { title := "Book E", price_text := "£-5.0", rating_class := "Four",
    availability := "In stock", img_src := "../media/e.jpg", href := "../e_5/index.html" }

/-! ### C1 — per-item failure isolation in the catalog item loop -/

lemma parse_catalog_page_fst_eq (items : List Item) :
    (parse_catalog_page items).1
      = (items.takeWhile fun it => (parse_item it).isSome).filterMap parse_item := by
  induction items with
  | nil => rfl
  | cons it rest ih =>
    cases h : parse_item it with
    | none => simp [parse_catalog_page, h, List.takeWhile_cons]
    | some r =>
      simp [parse_catalog_page, h, List.takeWhile_cons, List.filterMap_cons, ih]

/-- C1, amended: the item loop keeps the records of the longest prefix of
items whose price parses, in document order; the first malformed item aborts
the rest of the page (it does not merely skip itself).  When every item on
the page parses, the loop returns one record per item node in document
order. -/
theorem parse_catalog_page_prefix_semantics :
    ∀ items : List Item,
      (parse_catalog_page items).1
          = (items.takeWhile fun it => (parse_item it).isSome).filterMap parse_item
        ∧ ((∀ it ∈ items, (parse_item it).isSome) →
            (parse_catalog_page items).1 = spec_parse_catalog_page items) := by
  intro items
  refine ⟨parse_catalog_page_fst_eq items, fun h => ?_⟩
  rw [parse_catalog_page_fst_eq items, spec_parse_catalog_page,
    List.takeWhile_eq_self_iff.mpr h]

theorem parse_catalog_page_prefix_semantics_witness :
    (∀ it ∈ [item_a, item_c], (parse_item it).isSome)
      ∧ (parse_catalog_page [item_a, item_c]).1 = spec_parse_catalog_page [item_a, item_c] :=
  ⟨by decide, (parse_catalog_page_prefix_semantics [item_a, item_c]).2 (by decide)⟩

/-- C1, counterexample: on the page `[item_a, item_bad, item_c]` the claimed
behaviour — return a record for every price-parseable item, the malformed
item skipping only itself — fails: `item_c` parses but its record is missing
from the loop's output, because the malformed `item_bad` aborted the page. -/
theorem parse_catalog_page_aborts_page_cex :
    (parse_catalog_page [item_a, item_bad, item_c]).1
        ≠ spec_parse_catalog_page [item_a, item_bad, item_c]
      ∧ (parse_item item_c).isSome
      ∧ (parse_catalog_page [item_a, item_bad, item_c]).1.length = 1 := by
  refine ⟨by decide, by decide, by decide⟩

/-! ### C3 — price extraction -/

/-- C3, amended: the price step removes every occurrence of the currency
glyph anywhere in the text (not one leading glyph) and parses the remainder
with `float`, accepting signed values; an unparseable remainder makes the
item's parse fail, which skips the item together with the rest of its page
and never crashes the scraper. -/
theorem parse_item_price_semantics :
    ∀ it : Item,
      ((parse_item it).map fun r => r.precio) = pyFloat (strip_pounds it.price_text)
        ∧ (pyFloat (strip_pounds it.price_text) = none →
            ∀ rest, (parse_catalog_page (it :: rest)).1 = []) := by
  intro it
  constructor
  · cases h : pyFloat (strip_pounds it.price_text) <;> simp [parse_item, h]
  · intro h rest
    simp [parse_catalog_page, parse_item, h]

theorem parse_item_price_semantics_witness :
    pyFloat (strip_pounds item_bad.price_text) = none
      ∧ (parse_catalog_page [item_bad, item_a]).1 = [] :=
  ⟨by decide, (parse_item_price_semantics item_bad).2 (by decide) [item_a]⟩

/-- C3, counterexample: the claimed extraction — strip exactly one leading
glyph, parse the rest as a non-negative decimal — disagrees with the code.
On `"££5"` the code strips both glyphs and yields `5`, where the claim
yields no parse; on `"£-5.0"` the code accepts the negative `-5`. -/
theorem parse_item_price_not_spec_cex :
    ((parse_item item_pounds).map fun r => r.precio) ≠ spec_price_parse item_pounds.price_text
      ∧ ((parse_item item_neg).map fun r => r.precio) ≠ spec_price_parse item_neg.price_text
      ∧ ((parse_item item_pounds).map fun r => r.precio) = some 5
      ∧ spec_price_parse "££5" = none
      ∧ ((parse_item item_neg).map fun r => r.precio) = some (-5)
      ∧ spec_price_parse "£-5.0" = none := by
  refine ⟨by decide, by decide, by decide, by decide, by decide, by decide⟩

/-! ### C4 — rating token mapping -/

/-- C4: `get_rating_number` maps the five star words to 1–5, every other
string to 0, and its result is always at most 5. -/
theorem get_rating_number_total_exact :
    get_rating_number "One" = 1 ∧ get_rating_number "Two" = 2
      ∧ get_rating_number "Three" = 3 ∧ get_rating_number "Four" = 4
      ∧ get_rating_number "Five" = 5
      ∧ (∀ s : String, s ∉ (["One", "Two", "Three", "Four", "Five"] : List String) →
          get_rating_number s = 0)
      ∧ (∀ s : String, get_rating_number s ≤ 5) := by
  refine ⟨by decide, by decide, by decide, by decide, by decide, ?_, ?_⟩
  · intro s hs
    simp only [List.mem_cons, List.not_mem_nil, or_false, not_or] at hs
    obtain ⟨h1, h2, h3, h4, h5⟩ := hs
    simp [get_rating_number, h1, h2, h3, h4, h5]
  · intro s
    unfold get_rating_number
    split_ifs <;> decide

theorem get_rating_number_total_exact_witness :
    ("Six" ∉ (["One", "Two", "Three", "Four", "Five"] : List String))
      ∧ get_rating_number "Six" = 0 :=
  ⟨by decide, get_rating_number_total_exact.2.2.2.2.2.1 "Six" (by decide)⟩

/-! ### C2 — the page walk -/

lemma page_step_snd (f : String → Option (List Item)) (t : String) (p : Nat) :
    (page_step f t p).2
      = Ev.fetch (format_url t p) :: (if page_ok f t p then [Ev.sleep] else []) := by
  rcases h : f (format_url t p) with _ | items <;> simp [page_step, page_ok, h]

lemma scrape_books_aux_records (f : String → Option (List Item)) (t : String) :
    ∀ c s, (scrape_books_aux f t s c).1
      = (List.range' s c).flatMap fun p => (page_step f t p).1 := by
  intro c
  induction c with
  | zero => intro s; simp [scrape_books_aux]
  | succ c ih => intro s; simp [scrape_books_aux, List.range'_succ, ih]

lemma scrape_books_aux_urls (f : String → Option (List Item)) (t : String) :
    ∀ c s, fetched_urls (scrape_books_aux f t s c).2
      = (List.range' s c).map (format_url t) := by
  intro c
  induction c with
  | zero => intro s; simp [scrape_books_aux, fetched_urls]
  | succ c ih =>
    intro s
    have hsplit : fetched_urls (scrape_books_aux f t s (c + 1)).2
        = fetched_urls (page_step f t s).2
            ++ fetched_urls (scrape_books_aux f t (s + 1) c).2 := by
      simp [scrape_books_aux, fetched_urls]
    rw [hsplit, ih (s + 1), page_step_snd, List.range'_succ]
    cases page_ok f t s <;> simp [fetched_urls]

/-- C2: for every fetch oracle, template and page count, `scrape_books`
issues exactly one fetch per page number 1..n, in that order, whatever the
outcomes of earlier pages; and `all_books` is the concatenation of the
per-page results in page order, failed pages contributing nothing (no
placeholder entries). -/
theorem scrape_books_walk_semantics :
    ∀ (f : String → Option (List Item)) (t : String) (n : Nat),
      fetched_urls (scrape_books f t n).2 = (List.range' 1 n).map (format_url t)
        ∧ (scrape_books f t n).1
            = (List.range' 1 n).flatMap fun p => (page_step f t p).1 := by
  intro f t n
  exact ⟨scrape_books_aux_urls f t n 1, scrape_books_aux_records f t n 1⟩

/-! ### C8 — the politeness delay between fetches -/

lemma well_delayed_sleep_cons (rest : List Ev) :
    well_delayed (Ev.sleep :: rest) = well_delayed rest := by
  cases rest <;> simp [well_delayed, Ev.isFetch]

lemma well_delayed_fetch_sleep (u : String) (rest : List Ev) :
    well_delayed (Ev.fetch u :: Ev.sleep :: rest) = well_delayed rest := by
  simp [well_delayed, Ev.isFetch, well_delayed_sleep_cons]

lemma well_delayed_fetch_fetch (u v : String) (rest : List Ev) :
    well_delayed (Ev.fetch u :: Ev.fetch v :: rest) = false := by
  simp [well_delayed, Ev.isFetch]

lemma scrape_books_aux_trace_cons (f : String → Option (List Item)) (t : String)
    (s c : Nat) :
    ∃ l, (scrape_books_aux f t s (c + 1)).2 = Ev.fetch (format_url t s) :: l := by
  refine ⟨(if page_ok f t s then [Ev.sleep] else []) ++ (scrape_books_aux f t (s + 1) c).2, ?_⟩
  simp [scrape_books_aux, page_step_snd]

lemma scrape_books_aux_well_delayed (f : String → Option (List Item)) (t : String) :
    ∀ c s, well_delayed (scrape_books_aux f t s c).2
      = (List.range' s (c - 1)).all fun p => page_ok f t p := by
  intro c
  induction c with
  | zero => intro s; simp [scrape_books_aux, well_delayed]
  | succ c ih =>
    intro s
    cases c with
    | zero =>
      cases h : page_ok f t s <;>
        simp [scrape_books_aux, page_step_snd, h, well_delayed, Ev.isFetch]
    | succ c' =>
      obtain ⟨l, hl⟩ := scrape_books_aux_trace_cons f t (s + 1) c'
      have hsplit : (scrape_books_aux f t s (c' + 1 + 1)).2
          = (page_step f t s).2 ++ (scrape_books_aux f t (s + 1) (c' + 1)).2 := by
        simp [scrape_books_aux]
      cases h : page_ok f t s with
      | true =>
        rw [hsplit, page_step_snd, h, hl]
        simp only [if_true, ite_true, List.cons_append, List.nil_append]
        rw [well_delayed_fetch_sleep, ← hl, ih (s + 1)]
        simp [List.range'_succ, h]
      | false =>
        rw [hsplit, page_step_snd, h, hl]
        simp [well_delayed_fetch_fetch, List.range'_succ, h]

/-- C8, amended: the sleep call sits inside the `try` block, so the delay
separates the fetch of page `p` from the fetch of page `p + 1` exactly when
page `p` was processed without an exception; the whole trace is
delay-separated precisely when every page before the last raised nothing.
After a failed fetch or a failed page parse, the next fetch is issued with
no intervening delay. -/
theorem scrape_books_delay_iff_pages_ok :
    ∀ (f : String → Option (List Item)) (t : String) (n : Nat),
      well_delayed (scrape_books f t n).2
        = (List.range' 1 (n - 1)).all fun p => page_ok f t p := by
  intro f t n
  exact scrape_books_aux_well_delayed f t n 1

/-- The catalog page URL template, as in `base_url` of the source. -/
def template0 : String := "page-\x7b\x7d.html"

/-- A fetch oracle on which page 1 fails and every later page is an empty
page that parses cleanly. -/
def fail_first_fetch : String → Option (List Item) := fun u =>
  if u = "page-1.html" then none else some []

/-- C8, counterexample: when the fetch of page 1 fails, the fetch of page 2
follows it immediately — the trace contains two consecutive fetch events
with no delay step between them, refuting the claim that the delay is
enforced on fetch success and failure alike. -/
theorem scrape_books_delay_skipped_cex :
    (scrape_books fail_first_fetch template0 2).2
        = [Ev.fetch "page-1.html", Ev.fetch "page-2.html", Ev.sleep]
      ∧ well_delayed (scrape_books fail_first_fetch template0 2).2 = false := by
  refine ⟨by decide, by decide⟩

/-! ### C5 — the enrichment loop -/

lemma enrich_details_eq_filterMap (fd : String → Option DetailDoc) :
    ∀ rs : List BookRecord,
      enrich_details fd rs
        = rs.filterMap fun r => (scrape_book_details (fd r.libro_url)).map (merge_detail r) := by
  intro rs
  induction rs with
  | nil => rfl
  | cons r rest ih =>
    cases h : scrape_book_details (fd r.libro_url) <;> simp [enrich_details, h, ih]

/-- C5: the enrichment loop touches only the first `limit` records, its
output drops every record whose detail fetch or parse failed (no
empty-field placeholders), and the surviving merged records keep the input
order — the output is exactly the in-order filtering of the first `limit`
records through the detail scraper. -/
theorem enrich_loop_semantics :
    ∀ (fd : String → Option DetailDoc) (records : List BookRecord) (limit : Nat),
      (enrich_loop fd records limit).length ≤ limit
        ∧ enrich_loop fd records limit
            = (records.take limit).filterMap
                fun r => (scrape_book_details (fd r.libro_url)).map (merge_detail r) := by
  intro fd records limit
  constructor
  · rw [enrich_loop, enrich_details_eq_filterMap]
    calc (List.filterMap _ (records.take limit)).length
        ≤ (records.take limit).length := List.length_filterMap_le _ _
      _ ≤ limit := by simp [List.length_take]
  · rw [enrich_loop, enrich_details_eq_filterMap]

/-! ### C10 — the detail scraper returns `None` or a complete dictionary -/

lemma build_product_info_row_fail :
    ∀ (rows : List (Option String × Option String)) (r : Option String × Option String),
      r ∈ rows → (r.1 = none ∨ r.2 = none) → build_product_info rows = none := by
  intro rows
  induction rows with
  | nil => intro r hr; simp at hr
  | cons row rest ih =>
    intro r hr hbad
    rcases List.mem_cons.mp hr with rfl | hmem
    · obtain ⟨th, td⟩ := r
      rcases hbad with h | h <;> simp only at h <;> subst h
      · simp [build_product_info]
      · cases th <;> simp [build_product_info]
    · obtain ⟨th, td⟩ := row
      cases th with
      | none => simp [build_product_info]
      | some hh =>
        cases td with
        | none => simp [build_product_info]
        | some v => simp [build_product_info, ih r hmem hbad]

lemma scrape_book_details_some_inv :
    ∀ (doc : DetailDoc) (d : List (String × String)),
      scrape_book_details (some doc) = some d →
        ∃ links category tag info,
          doc.breadcrumb_links = some links ∧ links[2]? = some category
            ∧ doc.article_first_p = some tag
            ∧ ((doc.table_rows = none ∧ info = [])
                ∨ (∃ rows, doc.table_rows = some rows ∧ build_product_info rows = some info))
            ∧ d = [("categoria", category),
                   ("descripcion", match tag with | some t => t | none => "Sin descripción"),
                   ("upc", py_dict_getD info "UPC" ""),
                   ("impuestos", py_dict_getD info "Tax" ""),
                   ("stock", py_dict_getD info "Availability" "")] := by
  intro doc d h
  rcases doc with ⟨bl, ap, tr⟩
  rcases bl with _ | links
  · simp [scrape_book_details] at h
  · rcases h2 : links[2]? with _ | category
    · simp [scrape_book_details, h2] at h
    · rcases ap with _ | tag
      · simp [scrape_book_details, h2] at h
      · rcases tr with _ | rows
        · simp [scrape_book_details, h2] at h
          exact ⟨links, category, tag, [], rfl, h2, rfl, Or.inl ⟨rfl, rfl⟩, h.symm⟩
        · rcases h3 : build_product_info rows with _ | info
          · simp [scrape_book_details, h2, h3] at h
          · simp [scrape_book_details, h2, h3] at h
            exact ⟨links, category, tag, info, rfl, h2, rfl, Or.inr ⟨rows, rfl, h3⟩, h.symm⟩

/-- C10: `scrape_book_details` never propagates an exception — a failed
fetch, an absent breadcrumb list, or a product-table row lacking its header
(or value) cell each make the whole call return `None` (the defective row
aborts the entire detail instead of defaulting one field); and every
non-`None` result is the complete five-field dictionary. -/
theorem scrape_book_details_none_or_complete :
    ∀ fetched : Option DetailDoc,
      (fetched = none → scrape_book_details fetched = none)
        ∧ (∀ doc, fetched = some doc → doc.breadcrumb_links = none →
            scrape_book_details fetched = none)
        ∧ (∀ doc rows r, fetched = some doc → doc.table_rows = some rows → r ∈ rows →
            (r.1 = none ∨ r.2 = none) → scrape_book_details fetched = none)
        ∧ (∀ d, scrape_book_details fetched = some d →
            d.map Prod.fst = ["categoria", "descripcion", "upc", "impuestos", "stock"]) := by
  intro fetched
  refine ⟨?_, ?_, ?_, ?_⟩
  · intro h; subst h; rfl
  · intro doc h hb
    subst h
    rcases doc with ⟨bl, ap, tr⟩
    simp only at hb
    subst hb
    rfl
  · intro doc rows r hf ht hr hbad
    subst hf
    have hb := build_product_info_row_fail rows r hr hbad
    rcases doc with ⟨bl, ap, tr⟩
    simp only at ht
    subst ht
    rcases bl with _ | links
    · rfl
    · rcases h2 : links[2]? with _ | category
      · simp [scrape_book_details, h2]
      · rcases ap with _ | tag
        · simp [scrape_book_details, h2]
        · simp [scrape_book_details, h2, hb]
  · intro d h
    rcases fetched with _ | doc
    · simp [scrape_book_details] at h
    · obtain ⟨links, category, tag, info, _, _, _, _, rfl⟩ :=
        scrape_book_details_some_inv doc d h
      rfl

/-- A detail page whose product table has a row without a header cell. -/
def bad_row_doc : DetailDoc :=
  { breadcrumb_links := some ["Home", "Books", "Poetry"],
    article_first_p := some (some "text"),
    table_rows := some [(none, some "orphan")] }

theorem scrape_book_details_none_or_complete_witness :
    ((none, some "orphan") ∈ [((none : Option String), (some "orphan" : Option String))])
      ∧ scrape_book_details (some bad_row_doc) = none :=
  ⟨by decide,
    (scrape_book_details_none_or_complete (some bad_row_doc)).2.2.1 bad_row_doc
      [(none, some "orphan")] (none, some "orphan") rfl rfl (by decide) (Or.inl rfl)⟩

/-! ### C6 — the enrichment merge -/

/-- A parsed catalog record, as `parse_item` would produce for `item_a`. -/
def record0 : BookRecord :=
  { titulo := "Book A", precio := 10, rating := 3, disponibilidad := "In stock",
    imagen_url := "http://books.toscrape.com/media/a.jpg",
    libro_url := "http://books.toscrape.com/catalogue/a_1/index.html" }

/-- A detail dictionary as returned by `scrape_book_details`. -/
def details0 : List (String × String) :=
  [("categoria", "Poetry"), ("descripcion", "A nice book."), ("upc", "abc123"),
   ("impuestos", "£0.00"), ("stock", "In stock (22 available)")]

/-- A fully well-formed detail page whose scrape yields `details0`. -/
def detail_doc0 : DetailDoc :=
  { breadcrumb_links := some ["Home", "Books", "Poetry"],
    article_first_p := some (some "A nice book."),
    table_rows := some [(some "UPC", some "abc123"), (some "Tax", some "£0.00"),
      (some "Availability", some "In stock (22 available)")] }

/-- C6, counterexample: the merged dictionary is not a superset of the
catalog record's fields — `disponibilidad`, `imagen_url` and `libro_url`
are absent from it, although the record carries them. -/
theorem merge_detail_drops_record_fields_cex :
    ((merge_detail record0 details0).map Prod.fst).contains "disponibilidad" = false
      ∧ ((merge_detail record0 details0).map Prod.fst).contains "imagen_url" = false
      ∧ ((merge_detail record0 details0).map Prod.fst).contains "libro_url" = false
      ∧ record0.disponibilidad = "In stock" := by
  refine ⟨by decide, by decide, by decide, by decide⟩

/-- C6, amended: an enriched record keeps exactly `titulo`, `precio` and
`rating` from the catalog record — present and unchanged — and adds the
five detail fields; the record's `disponibilidad`, `imagen_url` and
`libro_url` are not carried over. -/
theorem merge_detail_superset_of_triple :
    ∀ (r : BookRecord) (fetched : Option DetailDoc) (d : List (String × String)),
      scrape_book_details fetched = some d →
        (merge_detail r d).map Prod.fst
            = ["titulo", "precio", "rating", "categoria", "descripcion",
               "upc", "impuestos", "stock"]
          ∧ py_val_get (merge_detail r d) "titulo" = some (Val.s r.titulo)
          ∧ py_val_get (merge_detail r d) "precio" = some (Val.q r.precio)
          ∧ py_val_get (merge_detail r d) "rating" = some (Val.n r.rating) := by
  intro r fetched d h
  rcases fetched with _ | doc
  · simp [scrape_book_details] at h
  · obtain ⟨links, category, tag, info, _, _, _, _, rfl⟩ :=
      scrape_book_details_some_inv doc d h
    exact ⟨rfl, rfl, rfl, rfl⟩

theorem merge_detail_superset_of_triple_witness :
    scrape_book_details (some detail_doc0) = some details0
      ∧ py_val_get (merge_detail record0 details0) "titulo" = some (Val.s record0.titulo) :=
  ⟨by decide,
    (merge_detail_superset_of_triple record0 (some detail_doc0) details0 (by decide)).2.1⟩

/-! ### C9 — detail-page defaults -/

lemma build_product_info_no_key :
    ∀ (rows : List (Option String × Option String)) (info : List (String × String))
      (k : String),
      build_product_info rows = some info → (∀ r ∈ rows, r.1 ≠ some k) →
        py_dict_get info k = none := by
  intro rows
  induction rows with
  | nil =>
    intro info k h _
    simp [build_product_info] at h
    subst h
    rfl
  | cons row rest ih =>
    intro info k h hk
    obtain ⟨th, td⟩ := row
    cases th with
    | none => simp [build_product_info] at h
    | some hh =>
      cases td with
      | none => simp [build_product_info] at h
      | some v =>
        rcases h3 : build_product_info rest with _ | acc
        · simp [build_product_info, h3] at h
        · simp [build_product_info, h3] at h
          have h1 : py_dict_get acc k = none :=
            ih acc k h3 fun r hr => hk r (List.mem_cons_of_mem _ hr)
          have h2 : (hh == k) = false := by
            have hne := hk (some hh, some v) (List.mem_cons_self _ _)
            simp only [ne_eq, Option.some.injEq] at hne
            exact beq_eq_false_iff_ne.mpr hne
          have h1' : acc.reverse.find? (fun kv => kv.1 == k) = none := by
            have := h1
            rw [py_dict_get] at this
            exact Option.map_eq_none'.mp this
          subst h
          simp [py_dict_get, List.find?_append, h1', List.find?, h2]

/-- C9, amended: when the description paragraph is absent the detail parser
substitutes the fixed sentinel string "Sin descripción" (the source's
literal; not the English "no description" the claim names) instead of
failing, and product-table keys with no row — or no table at all — default
to the empty string for the UPC, Tax and Availability lookups. -/
theorem scrape_book_details_defaults :
    ∀ (doc : DetailDoc) (d : List (String × String)),
      scrape_book_details (some doc) = some d →
        (doc.article_first_p = some none →
            py_dict_get d "descripcion" = some "Sin descripción")
          ∧ (∀ rows, doc.table_rows = some rows → (∀ r ∈ rows, r.1 ≠ some "UPC") →
              py_dict_get d "upc" = some "")
          ∧ (∀ rows, doc.table_rows = some rows → (∀ r ∈ rows, r.1 ≠ some "Tax") →
              py_dict_get d "impuestos" = some "")
          ∧ (∀ rows, doc.table_rows = some rows →
              (∀ r ∈ rows, r.1 ≠ some "Availability") →
              py_dict_get d "stock" = some "")
          ∧ (doc.table_rows = none →
              py_dict_get d "upc" = some "" ∧ py_dict_get d "impuestos" = some ""
                ∧ py_dict_get d "stock" = some "") := by
  intro doc d h
  obtain ⟨links, category, tag, info, hbl, h2, hap, hinfo, rfl⟩ :=
    scrape_book_details_some_inv doc d h
  refine ⟨?_, ?_, ?_, ?_, ?_⟩
  · intro htag
    rw [hap] at htag
    obtain rfl : tag = none := by simpa using htag
    rfl
  · intro rows ht hrows
    rcases hinfo with ⟨hnone, _⟩ | ⟨rows', ht', hbuild⟩
    · rw [ht] at hnone; cases hnone
    · rw [ht] at ht'
      obtain rfl : rows' = rows := by simpa using ht'.symm
      have hz := build_product_info_no_key _ info "UPC" hbuild hrows
      rw [py_dict_get] at hz
      simp [py_dict_get, List.find?, py_dict_getD, hz]
  · intro rows ht hrows
    rcases hinfo with ⟨hnone, _⟩ | ⟨rows', ht', hbuild⟩
    · rw [ht] at hnone; cases hnone
    · rw [ht] at ht'
      obtain rfl : rows' = rows := by simpa using ht'.symm
      have hz := build_product_info_no_key _ info "Tax" hbuild hrows
      rw [py_dict_get] at hz
      simp [py_dict_get, List.find?, py_dict_getD, hz]
  · intro rows ht hrows
    rcases hinfo with ⟨hnone, _⟩ | ⟨rows', ht', hbuild⟩
    · rw [ht] at hnone; cases hnone
    · rw [ht] at ht'
      obtain rfl : rows' = rows := by simpa using ht'.symm
      have hz := build_product_info_no_key _ info "Availability" hbuild hrows
      rw [py_dict_get] at hz
      simp [py_dict_get, List.find?, py_dict_getD, hz]
  · intro ht
    rcases hinfo with ⟨_, rfl⟩ | ⟨rows', ht', _⟩
    · exact ⟨rfl, rfl, rfl⟩
    · rw [ht] at ht'; cases ht'

/-- A detail page with no description paragraph. -/
def no_desc_doc : DetailDoc :=
  { breadcrumb_links := some ["Home", "Books", "Poetry"],
    article_first_p := some none,
    table_rows := some [(some "UPC", some "u1")] }

/-- C9, counterexample: the substituted sentinel is the Spanish string of
the source, not the English "no description" stated by the claim. -/
theorem detail_sentinel_not_english_cex :
    ((scrape_book_details (some no_desc_doc)).bind fun d => py_dict_get d "descripcion")
        = some "Sin descripción"
      ∧ "Sin descripción" ≠ "no description" := by
  refine ⟨by decide, by decide⟩

/-- A detail page with no description paragraph and no product table. -/
def no_table_doc : DetailDoc :=
  { breadcrumb_links := some ["Home", "Books", "Poetry"],
    article_first_p := some none,
    table_rows := none }

/-- The dictionary `scrape_book_details` produces for `no_table_doc`. -/
def no_table_details : List (String × String) :=
  [("categoria", "Poetry"), ("descripcion", "Sin descripción"), ("upc", ""),
   ("impuestos", ""), ("stock", "")]

theorem scrape_book_details_defaults_witness :
    scrape_book_details (some no_table_doc) = some no_table_details
      ∧ py_dict_get no_table_details "descripcion" = some "Sin descripción"
      ∧ py_dict_get no_table_details "upc" = some "" :=
  ⟨by decide,
    (scrape_book_details_defaults no_table_doc no_table_details (by decide)).1 rfl,
    ((scrape_book_details_defaults no_table_doc no_table_details (by decide)).2.2.2.2 rfl).1⟩

/-! ### C7 — summary statistics -/

/-- A catalog record with the given price and rating. -/
def sample_record (p : Rat) (r : Nat) : BookRecord :=
  { titulo := "T", precio := p, rating := r, disponibilidad := "d",
    imagen_url := "i", libro_url := "u" }

/-- The aggregates of the three-record example catalog. -/
def stats_example : SummaryStats :=
  { total_libros := 3, precio_promedio := 20, precio_minimo := 10,
    precio_maximo := 30, rating_promedio := 2 }

/-- C7: on an empty catalog the statistics step faults — `pd.DataFrame([])`
has no columns, so reading the price column raises `KeyError` instead of
yielding any fallback value; on the non-empty example catalog with prices
10, 20, 30 it returns count 3, mean 20, min 10, max 30 and the mean
rating. -/
theorem compute_stats_empty_faults :
    compute_stats [] = Except.error "KeyError: precio"
      ∧ compute_stats [sample_record 10 1, sample_record 20 2, sample_record 30 3]
          = Except.ok stats_example := by
  constructor
  · rfl
  · simp [compute_stats, df_column, book_row, sample_record, py_val_get, series_mean,
      series_min, series_max, val_num, List.filterMap, stats_example]
    norm_num
